import Mathlib

/-!
Shallow embedding of the AED_Api data-ingestion pipeline, report/flag
subsystem, proximity-query validation, coverage evaluator and distance
formatter, translated from the Python sources under `app/`.

Numeric values are modelled by exact rationals (`ℚ`); machine floats in the
source carry only coordinate and distance magnitudes for which the exact
model agrees on every value exercised here.  External collaborators (the
HTTP fetch and the pandas CSV parser) are passed in as explicit arguments,
matching the specification's treatment of them as out-of-scope interfaces.
Database sessions are modelled by explicit state passing: a session holds
the committed table contents and the pending (in-transaction) contents, and
`flush`/`commit`/`rollback` act on that state exactly as the driver's API
promises.  Injected failure oracles decide which flush/commit calls raise,
so that the error-handling paths of the source are reachable in the model.
-/

namespace AEDApi

/-- A pandas cell value: missing (`NaN`), a string, or a number. -/
inductive CsvValue where
  | nan : CsvValue
  | str (s : String) : CsvValue
  | num (q : ℚ) : CsvValue
deriving DecidableEq

/-- One parsed CSV row: column name to cell value.  Columns produced by the
column reconciler always exist in the frame, so lookup of a mapped column
never fails; an absent pair denotes a `NaN` cell. -/
abbrev Row := List (String × CsvValue)

/-- Cell access `row[col]`; a column with no stored pair reads as `NaN`. -/
def Row.get (row : Row) (col : String) : CsvValue :=
  (row.lookup col).getD CsvValue.nan

/-- Leading and trailing whitespace removed, on character lists. -/
def trimChars (cs : List Char) : List Char :=
  ((cs.dropWhile Char.isWhitespace).reverse.dropWhile Char.isWhitespace).reverse

/-- Numeric value of a digit chunk. -/
def digitsToNat (w : List Char) : ℕ :=
  w.foldl (fun n c => 10 * n + (c.toNat - 48)) 0

/-- Digits of a decimal literal chunk, or `none` when empty or non-numeric. -/
def decDigits (w : List Char) : Option ℕ :=
  if w ≠ [] ∧ w.all Char.isDigit then some (digitsToNat w) else none

/-- Model of CPython `float(str)` on the decimal forms of the feed:
optional surrounding whitespace, optional sign, integer digits, optional
fractional digits.  Strings such as "abc" are rejected, exactly as `float`
raises `ValueError` on them. -/
def parseDecimal (s : String) : Option ℚ :=
  let t := trimChars s.data
  let (sign, body) :=
    match t with
    | '-' :: rest => ((-1 : ℚ), rest)
    | '+' :: rest => ((1 : ℚ), rest)
    | _ => ((1 : ℚ), t)
  match body.splitOn '.' with
  | [w] => (decDigits w).map (fun n => sign * (n : ℚ))
  | [w, f] =>
    if w = [] then
      (decDigits f).map (fun n => sign * ((n : ℚ) / 10 ^ f.length))
    else if f = [] then
      (decDigits w).map (fun n => sign * (n : ℚ))
    else
      match decDigits w, decDigits f with
      | some a, some b => some (sign * ((a : ℚ) + (b : ℚ) / 10 ^ f.length))
      | _, _ => none
  | _ => none

/-- Model of `float(value)`.  Numbers pass through; strings go through the
decimal parse and raise (`.error`) when non-numeric; the `NaN` case is
unreachable at every call site because the source guards with `pd.notna`. -/
def pyFloat : CsvValue → Except String ℚ
  | CsvValue.num q => Except.ok q
  | CsvValue.str s =>
    match parseDecimal s with
    | some q => Except.ok q
    | none => Except.error "could not convert string to float"
  | CsvValue.nan => Except.error "nan"

/-- Model of `str(value)` on cell values.  The rendering of numeric cells
differs textually from CPython float repr, which no claim observes. -/
def pyStr : CsvValue → String
  | CsvValue.str s => s
  | CsvValue.num q => toString q
  | CsvValue.nan => "nan"

/-- Model of Python `str.lower()` (the feed values are ASCII): lowercase
every character. -/
def py_lower (s : String) : String :=
  String.mk (s.data.map Char.toLower)

/-- Model of `bool(value)` generic truthiness: empty string falsy, zero
falsy, float NaN truthy. -/
def pyTruthy : CsvValue → Bool
  | CsvValue.str s => s ≠ ""
  | CsvValue.num q => q ≠ 0
  | CsvValue.nan => true

/-- The canonical-field-to-column mapping built by the column reconciler:
for each canonical field, the matched header column if any.  The Python
sources hold this as a dict keyed by the thirteen fixed field names. -/
structure ColumnMatches where
  name : Option String
  address : Option String
  location_detail : Option String
  lat : Option String
  lng : Option String
  public_use : Option String
  allowed_operators : Option String
  access_persons : Option String
  category : Option String
  service_hours : Option String
  brand : Option String
  model : Option String
  remark : Option String
deriving DecidableEq

/-- First alias of the priority list that appears among the header columns:
the inner loop `for col in possible_columns: if col in df.columns`. -/
def findAlias (aliases : List String) (cols : List String) : Option String :=
  aliases.find? (fun c => cols.contains c)

/-- Alias priority list for the `name` field. -/
def name_aliases : List String := ["AED Name", "Name", "AEDName", "aed_name"]

/-- Alias priority list for the `address` field. -/
def address_aliases : List String :=
  ["AED Address", "Address", "AEDAddress", "aed_address"]

/-- Alias priority list for the `location_detail` field. -/
def location_detail_aliases : List String :=
  ["Detailed location of the AED installed", "Location Detail", "DetailedLocation"]

/-- Alias priority list for the `lat` field. -/
def lat_aliases : List String :=
  ["Location Google Map coordinate: latitude", "Latitude", "latitude", "lat"]

/-- Alias priority list for the `lng` field. -/
def lng_aliases : List String :=
  ["Location Google Map coordinate: longitude", "Longitude", "longitude", "lng"]

/-- Alias priority list for the `public_use` field. -/
def public_use_aliases : List String :=
  ["Whether the AED can be used by anyone", "Public Use", "PublicUse"]

/-- Alias priority list for the `allowed_operators` field. -/
def allowed_operators_aliases : List String :=
  ["Person allowed to operate the AED", "Allowed Operators", "AllowedOperators"]

/-- Alias priority list for the `access_persons` field. -/
def access_persons_aliases : List String :=
  ["Person who has access to the AED", "Access Persons", "AccessPersons"]

/-- Alias priority list for the `category` field. -/
def category_aliases : List String :=
  ["Ground level categories", "Category", "Categories", "ground_level_categories"]

/-- Alias priority list for the `service_hours` field. -/
def service_hours_aliases : List String :=
  ["Service Hour Remark", "Service Hours", "ServiceHours", "service_hour_remark"]

/-- Alias priority list for the `brand` field. -/
def brand_aliases : List String := ["AED brand", "Brand", "aed_brand"]

/-- Alias priority list for the `model` field. -/
def model_aliases : List String := ["AED model", "Model", "aed_model"]

/-- Alias priority list for the `remark` field. -/
def remark_aliases : List String := ["AED remark", "Remark", "aed_remark", "Remarks"]

/-- The `column_matches` dict built by the alias scan, common to
`aed_service.map_csv_columns`, `utils.map_columns`, the inline copy in
`routes/aeds.py` and the inline copy in `main.py` (all four hold the same
`column_map` literal). -/
def column_matches (cols : List String) : ColumnMatches where
  name := findAlias name_aliases cols
  address := findAlias address_aliases cols
  location_detail := findAlias location_detail_aliases cols
  lat := findAlias lat_aliases cols
  lng := findAlias lng_aliases cols
  public_use := findAlias public_use_aliases cols
  allowed_operators := findAlias allowed_operators_aliases cols
  access_persons := findAlias access_persons_aliases cols
  category := findAlias category_aliases cols
  service_hours := findAlias service_hours_aliases cols
  brand := findAlias brand_aliases cols
  model := findAlias model_aliases cols
  remark := findAlias remark_aliases cols

/-- `app/services/aed_service.py: map_csv_columns` — builds the alias
mapping and fails (returns `None`) when any of the required fields
`name`, `address`, `lat`, `lng` found no column. -/
def map_csv_columns (cols : List String) : Option ColumnMatches :=
  let cmatches := column_matches cols
  if cmatches.name.isNone ∨ cmatches.address.isNone ∨
      cmatches.lat.isNone ∨ cmatches.lng.isNone then none
  else some cmatches

/-- `app/utils.py: map_columns` — the same alias scan, returned directly
with no required-field check (it never fails). -/
def map_columns (cols : List String) : ColumnMatches :=
  column_matches cols

/-- `aed_service.safe_get_value` / the inline `safe_get` helpers: the value
of the mapped column, or the supplied default when the field has no mapped
column or the cell is `NaN`. -/
def safe_get_value (row : Row) (col : Option String) (dflt : CsvValue) : CsvValue :=
  match col with
  | none => dflt
  | some c =>
    let val := row.get c
    if val = CsvValue.nan then dflt else val

/-- `aed_service.process_coordinates` (the same code appears inline in
`routes/aeds.py` and `main.py`): a `NaN` cell coerces to `0.0`; a failing
`float` coercion returns `None` (caught `ValueError`/`TypeError`); a
coerced value outside `[-90,90]`×`[-180,180]` returns `None`; otherwise the
pair of coerced coordinates. -/
def process_coordinates (row : Row) (cm : ColumnMatches) : Option (ℚ × ℚ) :=
  match cm.lat, cm.lng with
  | some lat_col, some lng_col =>
    let latv := row.get lat_col
    let lngv := row.get lng_col
    match (if latv ≠ CsvValue.nan then pyFloat latv else Except.ok 0),
          (if lngv ≠ CsvValue.nan then pyFloat lngv else Except.ok 0) with
    | Except.ok lat, Except.ok lng =>
      if ¬(-90 ≤ lat ∧ lat ≤ 90) ∨ ¬(-180 ≤ lng ∧ lng ≤ 180) then none
      else some (lat, lng)
    | _, _ => none
  | _, _ => none

/-- A validated AED row draft as assembled by the ingestion loops, before
storage assigns an id.  Text fields keep their cell values as fetched;
`service_hours` is the string the refresh loop builds (`none` only on the
startup path, which stores `None` for a missing cell). -/
structure AedDraft where
  name : CsvValue
  address : CsvValue
  location_detail : CsvValue
  latitude : ℚ
  longitude : ℚ
  public_use : Bool
  allowed_operators : CsvValue
  access_persons : CsvValue
  category : CsvValue
  service_hours : Option String
  brand : CsvValue
  model : CsvValue
  remark : CsvValue
  geo_point : String
deriving DecidableEq

/-- Per-row outcome of the normalizer: an accepted draft, a deliberate
validation skip, or an unexpected error.  Within this value universe none
of the normalization steps can raise, so `errored` is produced only by the
loop embeddings when an injected database failure is caught row-level. -/
inductive RowOutcome where
  | accepted (draft : AedDraft) : RowOutcome
  | skipped : RowOutcome
  | errored : RowOutcome
deriving DecidableEq

/-- The `public_use` parse of the refresh paths (`aed_service.py` lines
205-210 and `routes/aeds.py` lines 158-163): default "No", then a string is
true when its lowercase form is one of "yes"/"true"/"1", and a non-string
is coerced with `bool(...)`. -/
def refresh_public_use (row : Row) (cm : ColumnMatches) : Bool :=
  match safe_get_value row cm.public_use (CsvValue.str "No") with
  | CsvValue.str s => ["yes", "true", "1"].contains (py_lower s)
  | v => pyTruthy v

/-- The `service_hours` normalization of the refresh paths: default empty
string for a missing or `NaN` cell, else `str(...)` of the cell. -/
def refresh_service_hours (row : Row) (cm : ColumnMatches) : String :=
  pyStr (safe_get_value row cm.service_hours (CsvValue.str ""))

/-- The `AEDModel(...)` constructor call of the refresh loops, given the
already validated coordinates. -/
def build_draft (row : Row) (cm : ColumnMatches) (lat lng : ℚ) : AedDraft where
  name := safe_get_value row cm.name (CsvValue.str "Unknown")
  address := safe_get_value row cm.address (CsvValue.str "")
  location_detail := safe_get_value row cm.location_detail (CsvValue.str "")
  latitude := lat
  longitude := lng
  public_use := refresh_public_use row cm
  allowed_operators := safe_get_value row cm.allowed_operators (CsvValue.str "")
  access_persons := safe_get_value row cm.access_persons (CsvValue.str "")
  category := safe_get_value row cm.category (CsvValue.str "")
  service_hours := some (refresh_service_hours row cm)
  brand := safe_get_value row cm.brand (CsvValue.str "")
  model := safe_get_value row cm.model (CsvValue.str "")
  remark := safe_get_value row cm.remark (CsvValue.str "")
  geo_point := "POINT(" ++ toString lng ++ " " ++ toString lat ++ ")"

/-- One iteration of the refresh row loop (`process_and_insert_data`):
coordinates failing validation skip the row, otherwise the draft is
assembled.  No normalization step of steps 1-5 can raise in this value
universe, so the `except` branch (errored) is unreachable here. -/
def classify_row (row : Row) (cm : ColumnMatches) : RowOutcome :=
  match process_coordinates row cm with
  | none => RowOutcome.skipped
  | some (lat, lng) => RowOutcome.accepted (build_draft row cm lat lng)

/-- Outcome of `routes/aeds.py: get_nearby_aeds` up to the storage call:
either an `HTTPException` raised before any query, or the spatial query
issued with the given parameters. -/
inductive NearbyOutcome where
  | rejected (code : ℕ) (detail : String) : NearbyOutcome
  | queried (lat lng radius : ℚ) (public_only : Bool) (limit : ℤ) : NearbyOutcome
deriving DecidableEq

/-- `routes/aeds.py: get_nearby_aeds`, validation stage: the only parameter
check is `radius <= 0`; all other parameters flow into the storage query. -/
def get_nearby_aeds (lat lng radius : ℚ) (limit : ℤ) (public_only : Bool) :
    NearbyOutcome :=
  if radius ≤ 0 then NearbyOutcome.rejected 400 "Radius must be greater than zero"
  else NearbyOutcome.queried lat lng radius public_only limit

/-- `routes/utils.py: evaluate_aed_coverage` — `area = 3.14159 * radius * radius`. -/
def coverage_area (radius : ℚ) : ℚ :=
  (314159 / 100000) * radius * radius

/-- `density = aed_count / area if area > 0 else 0`. -/
def coverage_density (count : ℕ) (radius : ℚ) : ℚ :=
  let area := coverage_area radius
  if 0 < area then (count : ℚ) / area else 0

/-- The coverage classification chain of `evaluate_aed_coverage`. -/
def coverage_rating (density : ℚ) : String :=
  if 2 ≤ density then "Excellent"
  else if 1 ≤ density then "Good"
  else if 1 / 2 ≤ density then "Moderate"
  else if 0 < density then "Poor"
  else "No Coverage"

/-- CPython `int(x)`: truncation toward zero. -/
def py_int (q : ℚ) : ℤ :=
  if 0 ≤ q then ⌊q⌋ else ⌈q⌉

/-- Rounding to the nearest integer, ties to even — the rounding CPython
`format(x, ".1f")` applies to the scaled value. -/
def round_half_even (q : ℚ) : ℤ :=
  if q - (⌊q⌋ : ℚ) < 1 / 2 then ⌊q⌋
  else if 1 / 2 < q - (⌊q⌋ : ℚ) then ⌊q⌋ + 1
  else if ⌊q⌋ % 2 = 0 then ⌊q⌋ else ⌊q⌋ + 1

/-- Rendering of `f"{q:.1f}"` for the nonnegative values reachable in the
kilometer branch of the formatter. -/
def format_one_decimal (q : ℚ) : String :=
  let n := (round_half_even (q * 10)).toNat
  toString (n / 10) ++ "." ++ toString (n % 10)

/-- `app/models.py: AEDWithDistance.format_distance` — below one kilometer
the distance renders as truncated integer meters, otherwise as kilometers
with one decimal place. -/
def format_distance (distance : ℚ) : String :=
  if distance < 1 then
    "~" ++ toString (py_int (distance * 1000)) ++ " m"
  else
    "~" ++ format_one_decimal distance ++ " km"

/-- A parsed data frame: the header columns and the rows, as returned by
the external CSV parser collaborator. -/
structure Df where
  columns : List String
  rows : List Row
deriving DecidableEq

/-- `aed_service.download_and_parse_data`: a transport failure or non-2xx
response (`requests` raises, caught) yields `None`; otherwise the body goes
to the CSV parser, whose total failure also yields `None`.  The fetch
outcome and the parser are the two external collaborators, passed in. -/
def download_and_parse_data (fetch : Except String String)
    (parseCsv : String → Option Df) : Option Df :=
  match fetch with
  | Except.error _ => none
  | Except.ok body => parseCsv body

/-- A SQLAlchemy session over the `aeds` table inside `update_aed_database`:
`committed` is what a commit has made durable, `pending` the working state
of the open transaction, `flushSeq` counts flush attempts so an injected
failure oracle can target any of them. -/
structure PgSession where
  committed : List AedDraft
  pending : List AedDraft
  flushSeq : ℕ
deriving DecidableEq

/-- `db.query(AEDModel).delete()` inside the transaction: clears the
pending table state only. -/
def PgSession.deleteAll (s : PgSession) : PgSession :=
  { s with pending := [] }

/-- `db.add_all(batch)`: stages the batch into the pending state. -/
def PgSession.addAll (s : PgSession) (batch : List AedDraft) : PgSession :=
  { s with pending := s.pending ++ batch }

/-- `db.flush()`: sends pending work to the open transaction; the boolean
is true when the flush raises (per the failure oracle).  A flush moves no
data between `pending` and `committed`. -/
def PgSession.flush (fail : ℕ → Bool) (s : PgSession) : Bool × PgSession :=
  (fail s.flushSeq, { s with flushSeq := s.flushSeq + 1 })

/-- `transaction.commit()`: makes the pending state durable. -/
def PgSession.commit (s : PgSession) : PgSession :=
  { s with committed := s.pending }

/-- `transaction.rollback()`: discards the pending state. -/
def PgSession.rollback (s : PgSession) : PgSession :=
  { s with pending := s.committed }

/-- The row-outcome counters of `process_and_insert_data`. -/
structure ProcessCounts where
  success : ℕ
  errors : ℕ
  skipped : ℕ
deriving DecidableEq

/-- The row loop of `aed_service.process_and_insert_data`: each accepted
draft joins the batch; at batch size 100 the batch is staged and flushed
(a raising flush is caught by the row-level `except`, counts as an error
and leaves the batch list unchanged, exactly as in the source); skipped
and errored rows only bump their counters. -/
def process_loop (fail : ℕ → Bool) (cm : ColumnMatches) :
    List Row → PgSession → List AedDraft → ProcessCounts →
    PgSession × List AedDraft × ProcessCounts
  | [], s, batch, c => (s, batch, c)
  | row :: rest, s, batch, c =>
    match classify_row row cm with
    | RowOutcome.skipped =>
      process_loop fail cm rest s batch { c with skipped := c.skipped + 1 }
    | RowOutcome.errored =>
      process_loop fail cm rest s batch { c with errors := c.errors + 1 }
    | RowOutcome.accepted d =>
      if 100 ≤ (batch ++ [d]).length then
        match (s.addAll (batch ++ [d])).flush fail with
        | (true, s2) =>
          process_loop fail cm rest s2 (batch ++ [d])
            { c with success := c.success + 1, errors := c.errors + 1 }
        | (false, s2) =>
          process_loop fail cm rest s2 [] { c with success := c.success + 1 }
      else
        process_loop fail cm rest s (batch ++ [d])
          { c with success := c.success + 1 }

/-- `process_and_insert_data`: run the row loop, then stage and flush any
remaining partial batch.  This final flush is outside the row-level `try`,
so its failure propagates (`.error`) to the transaction handler. -/
def process_and_insert_data (fail : ℕ → Bool) (s : PgSession) (df : Df)
    (cm : ColumnMatches) : Except PgSession (PgSession × ProcessCounts) :=
  match process_loop fail cm df.rows s [] ⟨0, 0, 0⟩ with
  | (s1, batch, c) =>
    if batch.isEmpty then Except.ok (s1, c)
    else
      match (s1.addAll batch).flush fail with
      | (true, s2) => Except.error s2
      | (false, s2) => Except.ok (s2, c)

/-- Result value of `update_aed_database`. -/
inductive RefreshStatus where
  | success (records_before records_after : ℕ) (counts : ProcessCounts) :
      RefreshStatus
  | failed (message : String) : RefreshStatus
deriving DecidableEq

/-- `aed_service.update_aed_database`, with the stored table threaded as
explicit state.  Steps: download+parse (abort on failure), column mapping
(abort on failure), schema preparation (always reports success and touches
no rows), record the before-count, then the delete-and-repopulate
transaction; any exception inside it (injected via the flush oracle, the
delete-failure flag, or the commit-failure flag) reaches the `except`
branch which rolls the transaction back. -/
def update_aed_database (fail : ℕ → Bool) (deleteFail commitFail : Bool)
    (fetch : Except String String) (parseCsv : String → Option Df)
    (db0 : List AedDraft) : List AedDraft × RefreshStatus :=
  match download_and_parse_data fetch parseCsv with
  | none => (db0, RefreshStatus.failed "Failed to download or parse data")
  | some df =>
    match map_csv_columns df.columns with
    | none =>
      (db0, RefreshStatus.failed "Failed to map CSV columns to database fields")
    | some cm =>
      if deleteFail then
        ((PgSession.rollback ⟨db0, db0, 0⟩).committed,
          RefreshStatus.failed "Database transaction failed: delete")
      else
        match process_and_insert_data fail
            (PgSession.deleteAll ⟨db0, db0, 0⟩) df cm with
        | Except.error s2 =>
          (s2.rollback.committed,
            RefreshStatus.failed "Database transaction failed: flush")
        | Except.ok (s2, counts) =>
          if commitFail then
            (s2.rollback.committed,
              RefreshStatus.failed "Database transaction failed: commit")
          else
            (s2.commit.committed,
              RefreshStatus.success db0.length s2.commit.committed.length counts)

/-- The drafts of the rows the normalizer accepts, in feed order: the
content a fully successful refresh commits. -/
def accepted_drafts (cm : ColumnMatches) (rows : List Row) : List AedDraft :=
  rows.filterMap (fun row =>
    match classify_row row cm with
    | RowOutcome.accepted d => some d
    | _ => none)

/-- The `public_use` parse of the startup import (`main.py` lines 347-349):
a string is true exactly when it equals "Yes"; a non-string is coerced with
`bool(...)`; the default for a missing cell is "No". -/
def startup_public_use (row : Row) (cm : ColumnMatches) : Bool :=
  match safe_get_value row cm.public_use (CsvValue.str "No") with
  | CsvValue.str s => s = "Yes"
  | v => pyTruthy v

/-- The `service_hours` normalization of the startup import (`main.py`
lines 339-345): a missing or `NaN` cell stays `None`, else `str(...)`. -/
def startup_service_hours (row : Row) (cm : ColumnMatches) : Option String :=
  match cm.service_hours with
  | none => none
  | some c =>
    let v := row.get c
    if v = CsvValue.nan then none else some (pyStr v)

/-- The `AEDModel(...)` constructor call of the startup import. -/
def startup_build_draft (row : Row) (cm : ColumnMatches) (lat lng : ℚ) :
    AedDraft where
  name := safe_get_value row cm.name (CsvValue.str "Unknown")
  address := safe_get_value row cm.address (CsvValue.str "")
  location_detail := safe_get_value row cm.location_detail (CsvValue.str "")
  latitude := lat
  longitude := lng
  public_use := startup_public_use row cm
  allowed_operators := safe_get_value row cm.allowed_operators (CsvValue.str "")
  access_persons := safe_get_value row cm.access_persons (CsvValue.str "")
  category := safe_get_value row cm.category (CsvValue.str "")
  service_hours := startup_service_hours row cm
  brand := safe_get_value row cm.brand (CsvValue.str "")
  model := safe_get_value row cm.model (CsvValue.str "")
  remark := safe_get_value row cm.remark (CsvValue.str "")
  geo_point := "POINT(" ++ toString lng ++ " " ++ toString lat ++ ")"

/-- One iteration of the startup import row loop (`main.py` lines 312-379),
coordinate validation identical to `process_coordinates`. -/
def startup_classify_row (row : Row) (cm : ColumnMatches) : RowOutcome :=
  match process_coordinates row cm with
  | none => RowOutcome.skipped
  | some (lat, lng) => RowOutcome.accepted (startup_build_draft row cm lat lng)

/-- A session for the startup import, which runs without an explicit
transaction and commits incrementally; `commitSeq` counts commit attempts
for the injected failure oracle. -/
structure StartupSession where
  committed : List AedDraft
  pending : List AedDraft
  commitSeq : ℕ
deriving DecidableEq

/-- `db.add(aed)`: stages one new row; nothing is ever deleted. -/
def StartupSession.add (s : StartupSession) (d : AedDraft) : StartupSession :=
  { s with pending := s.pending ++ [d] }

/-- `db.commit()` on the startup session; the boolean is true when the
commit raises (per the failure oracle), in which case nothing is made
durable. -/
def StartupSession.commit (fail : ℕ → Bool) (s : StartupSession) :
    Bool × StartupSession :=
  if fail s.commitSeq then (true, { s with commitSeq := s.commitSeq + 1 })
  else (false, { s with committed := s.pending, commitSeq := s.commitSeq + 1 })

/-- `db.rollback()` on the startup session. -/
def StartupSession.rollback (s : StartupSession) : StartupSession :=
  { s with pending := s.committed }

/-- The startup import row loop: every 100th accepted row triggers a batch
commit; a raising commit is caught by the row-level `except`, counts as an
error and the loop continues (`main.py` lines 371-379). -/
def startup_loop (fail : ℕ → Bool) (cm : ColumnMatches) :
    List Row → StartupSession → ℕ → ℕ → ℕ → StartupSession × ℕ × ℕ × ℕ
  | [], s, succ, err, skip => (s, succ, err, skip)
  | row :: rest, s, succ, err, skip =>
    match startup_classify_row row cm with
    | RowOutcome.skipped => startup_loop fail cm rest s succ err (skip + 1)
    | RowOutcome.errored => startup_loop fail cm rest s succ (err + 1) skip
    | RowOutcome.accepted d =>
      if (succ + 1) % 100 = 0 then
        match (s.add d).commit fail with
        | (true, s2) => startup_loop fail cm rest s2 (succ + 1) (err + 1) skip
        | (false, s2) => startup_loop fail cm rest s2 (succ + 1) err skip
      else startup_loop fail cm rest (s.add d) (succ + 1) err skip

/-- `main.py: startup_event`, data-loading part, with the stored table as
explicit state.  The import runs only when the stored count is zero; it
fetches, parses, maps columns with the required-field check, then runs the
row loop with incremental commits, a final commit inside the inner `try`
(on failure: rollback), and the trailing commit after the `try`/`except`
(on failure: the outer handler rolls back). -/
def startup_event (fail : ℕ → Bool) (fetch : Except String (ℕ × String))
    (parseCsv : String → Option Df) (db0 : List AedDraft) : List AedDraft :=
  if db0.length = 0 then
    match fetch with
    | Except.error _ => db0
    | Except.ok (status, body) =>
      if status ≠ 200 then db0
      else
        match parseCsv body with
        | none => db0
        | some df =>
          if (column_matches df.columns).name.isNone ∨
              (column_matches df.columns).address.isNone ∨
              (column_matches df.columns).lat.isNone ∨
              (column_matches df.columns).lng.isNone then db0
          else
            match startup_loop fail (column_matches df.columns) df.rows
                ⟨db0, db0, 0⟩ 0 0 0 with
            | (s1, _, _, _) =>
              match s1.commit fail with
              | (true, s2) =>
                match s2.rollback.commit fail with
                | (true, s4) => s4.rollback.committed
                | (false, s4) => s4.committed
              | (false, s2) =>
                match s2.commit fail with
                | (true, s3) => s3.rollback.committed
                | (false, s3) => s3.committed
  else db0

/-- A stored AED record as seen by the report endpoints.  Only the columns
these endpoints read or write appear; the other attribute columns are
carried by no operation here and are omitted. -/
structure AedRecord where
  id : ℤ
  is_flagged : Bool
  flag_reason : Option String
  flagged_at : Option String
deriving DecidableEq

/-- `models.AEDReportCreate`: the request body of both report endpoints. -/
structure ReportCreate where
  aed_id : ℤ
  report_type : String
  description : String
  reporter_name : Option String
  reporter_email : Option String
  reporter_phone : Option String
deriving DecidableEq

/-- A stored `aed_reports` row. -/
structure ReportRecord where
  id : ℕ
  aed_id : ℤ
  report_type : String
  description : String
  reporter_name : Option String
  reporter_email : Option String
  reporter_phone : Option String
  created_at : String
  status : String
deriving DecidableEq

/-- The two tables the report subsystem touches, plus the id sequence for
new reports. -/
structure ReportsDB where
  aeds : List AedRecord
  reports : List ReportRecord
  next_report_id : ℕ
deriving DecidableEq

/-- Endpoint outcome: success or an `HTTPException`. -/
inductive EndpointResult where
  | ok : EndpointResult
  | httpError (code : ℕ) (detail : String) : EndpointResult
deriving DecidableEq

/-- The valid report types, shared by both endpoints. -/
def valid_report_types : List String :=
  ["damaged", "missing", "incorrect_info", "other"]

/-- `routes/aeds.py: report_aed_issue` — 404 when no AED has the given id,
400 on an invalid report type, otherwise the report row is created and the
referenced AED's flag fields are set from the report. -/
def report_aed_issue (db : ReportsDB) (aed_id : ℤ) (rep : ReportCreate)
    (now : String) : ReportsDB × EndpointResult :=
  match db.aeds.find? (fun a => a.id == aed_id) with
  | none => (db, EndpointResult.httpError 404 "AED not found")
  | some _ =>
    if ¬ valid_report_types.contains rep.report_type then
      (db, EndpointResult.httpError 400 "Invalid report type")
    else
      let report : ReportRecord :=
        { id := db.next_report_id
          aed_id := aed_id
          report_type := rep.report_type
          description := rep.description
          reporter_name := rep.reporter_name
          reporter_email := rep.reporter_email
          reporter_phone := rep.reporter_phone
          created_at := now
          status := "pending" }
      let aeds := db.aeds.map (fun a =>
        if a.id == aed_id then
          { a with is_flagged := true
                   flag_reason := some rep.report_type
                   flagged_at := some now }
        else a)
      ({ aeds := aeds, reports := db.reports ++ [report],
         next_report_id := db.next_report_id + 1 }, EndpointResult.ok)

/-- `routes/reports.py: create_report` — `validate_numeric_param` only
checks `aed_id >= 1`; the report row is created with no lookup of the AED
and no write to any AED record. -/
def create_report (db : ReportsDB) (rep : ReportCreate) (now : String) :
    ReportsDB × EndpointResult :=
  if rep.aed_id < 1 then
    (db, EndpointResult.httpError 400 "aed_id must be at least 1.")
  else
    let report : ReportRecord :=
      { id := db.next_report_id
        aed_id := rep.aed_id
        report_type := rep.report_type
        description := rep.description
        reporter_name := rep.reporter_name
        reporter_email := rep.reporter_email
        reporter_phone := rep.reporter_phone
        created_at := now
        status := "pending" }
    ({ db with reports := db.reports ++ [report],
               next_report_id := db.next_report_id + 1 }, EndpointResult.ok)

/-- The claimed cross-entity invariant: a record is flagged exactly when
some report references it. -/
def flag_invariant (db : ReportsDB) : Prop :=
  ∀ a ∈ db.aeds, (a.is_flagged = true ↔ ∃ r ∈ db.reports, r.aed_id = a.id)

instance (db : ReportsDB) : Decidable (flag_invariant db) := by
  unfold flag_invariant
  infer_instance

/-- Example header whose columns match the second alias of the four
required fields and nothing else. -/
def ex_header4 : List String := ["AED Name", "AED Address", "Latitude", "Longitude"]

/-- The reconciler output for `ex_header4`. -/
def ex_cm4 : ColumnMatches := column_matches ex_header4

/-- Example header with an added `public_use` column. -/
def ex_header5 : List String :=
  ["AED Name", "AED Address", "Latitude", "Longitude", "Public Use"]

/-- The reconciler output for `ex_header5`. -/
def ex_cm5 : ColumnMatches := column_matches ex_header5

/-- Example header with no alias of the required `lat` field. -/
def ex_header_nolat : List String := ["AED Name", "AED Address", "Longitude"]

/-- Example row with latitude 95.0 (out of bounds). -/
def ex_row_lat95 : Row :=
  [("AED Name", CsvValue.str "X"), ("AED Address", CsvValue.str "Y"),
   ("Latitude", CsvValue.num 95), ("Longitude", CsvValue.num 114)]

/-- Example row with the non-numeric latitude "abc". -/
def ex_row_latabc : Row :=
  [("AED Name", CsvValue.str "X"), ("AED Address", CsvValue.str "Y"),
   ("Latitude", CsvValue.str "abc"), ("Longitude", CsvValue.num 114)]

/-- Example row with valid coordinates and no `brand` column. -/
def ex_row_nobrand : Row :=
  [("AED Name", CsvValue.str "X"), ("AED Address", CsvValue.str "Y"),
   ("Latitude", CsvValue.num 22), ("Longitude", CsvValue.num 114)]

/-- Example row whose latitude cell is missing (`NaN`). -/
def ex_row_missing_lat : Row :=
  [("AED Name", CsvValue.str "X"), ("AED Address", CsvValue.str "Y"),
   ("Latitude", CsvValue.nan), ("Longitude", CsvValue.num 114)]

/-- Example parsed frame with one valid row. -/
def ex_df : Df := ⟨ex_header4, [ex_row_nobrand]⟩

/-- Example stored state for the report subsystem: one unflagged record. -/
def ex_reports_db : ReportsDB where
  aeds := [{ id := 1, is_flagged := false, flag_reason := none, flagged_at := none }]
  reports := []
  next_report_id := 1

/-- Example report request against the existing record id 1. -/
def ex_report_create : ReportCreate where
  aed_id := 1
  report_type := "damaged"
  description := "pads missing"
  reporter_name := none
  reporter_email := none
  reporter_phone := none

/-- Example report request against the nonexistent record id 99. -/
def ex_report_create_dangling : ReportCreate where
  aed_id := 99
  report_type := "damaged"
  description := "pads missing"
  reporter_name := none
  reporter_email := none
  reporter_phone := none

/-- Header of the startup-import example feed. -/
def ex_startup_header : List String := ["Name", "Address", "Latitude", "Longitude"]

/-- One valid row of the startup-import example feed. -/
def ex_startup_row : Row :=
  [("Name", CsvValue.str "A"), ("Address", CsvValue.str "B"),
   ("Latitude", CsvValue.num 22), ("Longitude", CsvValue.num 114)]

/-- A startup-import example feed of 150 identical valid rows: enough to
cross one batch boundary of 100. -/
def ex_startup_df : Df := ⟨ex_startup_header, List.replicate 150 ex_startup_row⟩

/-- The draft the startup import builds from `ex_startup_row`. -/
def ex_startup_draft : AedDraft :=
  startup_build_draft ex_startup_row (column_matches ex_startup_header) 22 114

/-- `find?` returns the head of the filtered list: the characterization of
"the first alias of the priority list that appears in the header". -/
theorem find?_eq_head?_filter {α : Type} (p : α → Bool) (l : List α) :
    l.find? p = (l.filter p).head? := by
  induction l with
  | nil => rfl
  | cons a t ih =>
    rw [List.find?_cons, List.filter_cons]
    cases h : p a with
    | true => rfl
    | false =>
      show List.find? p t = _
      rw [if_neg (by simp), ih]

/-- C9.  `formatDistance`: distances under one kilometer render as
truncated integer meters, one kilometer and above render with one decimal
place; the four specified sample values hold; the function is a pure
function of its argument (it is a plain definition, so determinism and
absence of side effects hold by construction). -/
theorem C9_format_distance :
    format_distance (4321 / 10000) = "~432 m" ∧
    format_distance (999 / 1000) = "~999 m" ∧
    format_distance 1 = "~1.0 km" ∧
    format_distance (253 / 100) = "~2.5 km" ∧
    (∀ q : ℚ, q < 1 →
      format_distance q = "~" ++ toString (py_int (q * 1000)) ++ " m") ∧
    (∀ q : ℚ, 1 ≤ q →
      format_distance q = "~" ++ format_one_decimal q ++ " km") := by
  refine ⟨?_, ?_, ?_, ?_, ?_, ?_⟩
  · have h2 : py_int ((4321 : ℚ) / 10000 * 1000) = 432 := by
      unfold py_int
      rw [if_pos (by norm_num)]
      norm_num
    unfold format_distance
    rw [if_pos (by norm_num), h2]
    rfl
  · have h2 : py_int ((999 : ℚ) / 1000 * 1000) = 999 := by
      unfold py_int
      rw [if_pos (by norm_num)]
      norm_num
    unfold format_distance
    rw [if_pos (by norm_num), h2]
    rfl
  · have h2 : round_half_even ((1 : ℚ) * 10) = 10 := by
      unfold round_half_even
      rw [if_pos (by norm_num)]
      norm_num
    unfold format_distance format_one_decimal
    rw [if_neg (by norm_num), h2]
    rfl
  · have h2 : round_half_even ((253 : ℚ) / 100 * 10) = 25 := by
      unfold round_half_even
      rw [if_pos (by norm_num)]
      norm_num
    unfold format_distance format_one_decimal
    rw [if_neg (by norm_num), h2]
    rfl
  · intro q h
    unfold format_distance
    rw [if_pos h]
  · intro q h
    unfold format_distance
    rw [if_neg (not_lt.mpr h)]

/-- Witness for C9 at the concrete inputs 0.5 and 2. -/
theorem C9_format_distance_witness :
    format_distance (1 / 2) = "~" ++ toString (py_int (1 / 2 * 1000)) ++ " m" ∧
    format_distance 2 = "~" ++ format_one_decimal 2 ++ " km" :=
  ⟨C9_format_distance.2.2.2.2.1 (1 / 2) (by norm_num),
   C9_format_distance.2.2.2.2.2 2 (by norm_num)⟩

/-- C8 counterexample: the source computes the area with the literal
`3.14159`, so for radius 1 the computed area is 3.14159, which is not
π·1²; the claim that the computed area equals π·radius² fails. -/
theorem C8_coverage_counterexample :
    ((coverage_area 1 : ℚ) : ℝ) ≠ Real.pi * 1 ^ 2 := by
  have hπ : (3.141592 : ℝ) < Real.pi := Real.pi_gt_d6
  have harea : ((coverage_area 1 : ℚ) : ℝ) = 314159 / 100000 := by
    norm_num [coverage_area]
  rw [harea, one_pow, mul_one]
  intro h
  rw [← h] at hπ
  norm_num at hπ

/-- C8 as amended: the area is 3.14159·radius² (the source's rational
approximation of π), density is count divided by that area for a positive
radius, the rating thresholds are inclusive lower bounds exactly as
claimed, and 10 matches within a 5 km radius give density within 0.001 of
0.127 and rating "Poor". -/
theorem C8_coverage_evaluator :
    (∀ radius : ℚ, 0 < radius →
      coverage_area radius = 314159 / 100000 * radius ^ 2 ∧
      ∀ count : ℕ,
        coverage_density count radius = (count : ℚ) / coverage_area radius) ∧
    (∀ d : ℚ,
      (2 ≤ d → coverage_rating d = "Excellent") ∧
      (1 ≤ d → d < 2 → coverage_rating d = "Good") ∧
      (1 / 2 ≤ d → d < 1 → coverage_rating d = "Moderate") ∧
      (0 < d → d < 1 / 2 → coverage_rating d = "Poor") ∧
      (d = 0 → coverage_rating d = "No Coverage")) ∧
    |coverage_density 10 5 - 127 / 1000| < 1 / 1000 ∧
    coverage_rating (coverage_density 10 5) = "Poor" := by
  have hd : coverage_density 10 5 = 40000 / 314159 := by
    unfold coverage_density coverage_area
    rw [if_pos (by norm_num)]
    norm_num
  refine ⟨?_, ?_, ?_, ?_⟩
  · intro radius hr
    have harea : (0 : ℚ) < coverage_area radius := by
      unfold coverage_area
      positivity
    constructor
    · unfold coverage_area
      ring
    · intro count
      unfold coverage_density
      rw [if_pos harea]
  · intro d
    refine ⟨?_, ?_, ?_, ?_, ?_⟩ <;> intros <;>
      unfold coverage_rating <;> split_ifs <;> first | rfl | (exfalso; linarith)
  · rw [hd, abs_sub_lt_iff]
    constructor <;> norm_num
  · rw [hd]
    unfold coverage_rating
    rw [if_neg (by norm_num), if_neg (by norm_num), if_neg (by norm_num),
      if_pos (by norm_num)]

/-- Witness for C8 at radius 5 and count 10. -/
theorem C8_coverage_evaluator_witness :
    coverage_area 5 = 314159 / 100000 * 5 ^ 2 ∧
    coverage_density 10 5 = (10 : ℚ) / coverage_area 5 ∧
    coverage_rating (1 / 4) = "Poor" :=
  ⟨(C8_coverage_evaluator.1 5 (by norm_num)).1,
   (C8_coverage_evaluator.1 5 (by norm_num)).2 10,
   (C8_coverage_evaluator.2.1 (1 / 4)).2.2.2.1 (by norm_num) (by norm_num)⟩

/-- C6 counterexample: a latitude of 95 (outside [-90,90]) and a longitude
of 200 (outside [-180,180]) are not rejected — the storage query is issued
with them unchanged, refuting the claimed coordinate-range validation. -/
theorem C6_nearby_counterexample :
    get_nearby_aeds 95 200 1 50 true =
      NearbyOutcome.queried 95 200 1 true 50 := by decide

/-- C6 as amended: the nearby endpoint validates only the radius — a
radius not strictly greater than 0 is rejected with a 400 client error
before any storage query, while any latitude/longitude values, in range or
not, flow unvalidated into the storage query. -/
theorem C6_nearby_validation :
    ∀ (lat lng radius : ℚ) (limit : ℤ) (p : Bool),
      (radius ≤ 0 →
        get_nearby_aeds lat lng radius limit p =
          NearbyOutcome.rejected 400 "Radius must be greater than zero") ∧
      (0 < radius →
        get_nearby_aeds lat lng radius limit p =
          NearbyOutcome.queried lat lng radius p limit) := by
  intro lat lng radius limit p
  constructor
  · intro h
    unfold get_nearby_aeds
    rw [if_pos h]
  · intro h
    unfold get_nearby_aeds
    rw [if_neg (not_le.mpr h)]

/-- Witness for C6 at radius -1 (rejected) and radius 1 (query issued). -/
theorem C6_nearby_validation_witness :
    get_nearby_aeds 22 114 (-1) 50 true =
      NearbyOutcome.rejected 400 "Radius must be greater than zero" ∧
    get_nearby_aeds 22 114 1 50 true =
      NearbyOutcome.queried 22 114 1 true 50 :=
  ⟨(C6_nearby_validation 22 114 (-1) 50 true).1 (by norm_num),
   (C6_nearby_validation 22 114 1 50 true).2 (by norm_num)⟩

/-- C7 counterexample: on the startup import path a string cell "yes" is
parsed as false (the source compares for equality with "Yes" only), while
the refresh path parses the same cell as true — the claimed uniform
case-insensitive rule fails on the startup path. -/
theorem C7_public_use_counterexample :
    startup_public_use [("Public Use", CsvValue.str "yes")] ex_cm5 = false ∧
    refresh_public_use [("Public Use", CsvValue.str "yes")] ex_cm5 = true := by
  decide

/-- C7 as amended: on the refresh paths a string cell is true exactly when
its lowercase form is "yes", "true" or "1"; on the startup path a string
cell is true exactly when it equals "Yes"; a numeric cell is coerced with
generic truthiness on both paths; an absent column defaults to false on
both paths. -/
theorem C7_public_use_parsing :
    ∀ (row : Row) (cm : ColumnMatches),
      (∀ s : String,
        safe_get_value row cm.public_use (CsvValue.str "No") = CsvValue.str s →
        ((refresh_public_use row cm = true ↔
            (py_lower s = "yes" ∨ py_lower s = "true" ∨ py_lower s = "1")) ∧
         (startup_public_use row cm = true ↔ s = "Yes"))) ∧
      (∀ q : ℚ,
        safe_get_value row cm.public_use (CsvValue.str "No") = CsvValue.num q →
        ((refresh_public_use row cm = true ↔ q ≠ 0) ∧
         (startup_public_use row cm = true ↔ q ≠ 0))) ∧
      (cm.public_use = none →
        refresh_public_use row cm = false ∧ startup_public_use row cm = false) := by
  intro row cm
  refine ⟨?_, ?_, ?_⟩
  · intro s h
    constructor
    · unfold refresh_public_use
      rw [h]
      simp [List.contains]
    · unfold startup_public_use
      rw [h]
      simp
  · intro q h
    constructor
    · unfold refresh_public_use
      rw [h]
      simp [pyTruthy]
    · unfold startup_public_use
      rw [h]
      simp [pyTruthy]
  · intro h
    unfold refresh_public_use startup_public_use safe_get_value
    rw [h]
    simp [pyTruthy]
    decide

/-- Witness for C7: absent column gives false on both paths, and the cell
"TRUE" parses true on the refresh path. -/
theorem C7_public_use_parsing_witness :
    (refresh_public_use [] ex_cm4 = false ∧ startup_public_use [] ex_cm4 = false) ∧
    refresh_public_use [("Public Use", CsvValue.str "TRUE")] ex_cm5 = true :=
  ⟨(C7_public_use_parsing [] ex_cm4).2.2 (by decide),
   (((C7_public_use_parsing [("Public Use", CsvValue.str "TRUE")] ex_cm5).1
      "TRUE" (by decide)).1).mpr (Or.inr (Or.inl (by decide)))⟩

/-- C3 counterexample: a row whose latitude cell is missing coerces the
latitude to 0.0, and 0.0 then PASSES the bounds check (it lies inside
[-90,90]), so the row is accepted with latitude 0 — not skipped as the
claim states. -/
theorem C3_row_normalizer_counterexample :
    process_coordinates ex_row_missing_lat ex_cm4 = some (0, 114) ∧
    classify_row ex_row_missing_lat ex_cm4 ≠ RowOutcome.skipped := by decide

/-- C3 as amended: a row whose coordinate coercion raises is skipped; a
row whose coerced coordinate is out of bounds is skipped (latitude 95.0
and latitude "abc" are skipped concretely); a row missing the optional
`brand` column is accepted with brand equal to the empty string; but a
missing coordinate coerces to 0.0 which is inside the bounds, so such a
row is accepted with that coordinate 0.0 (not skipped). -/
theorem C3_row_normalizer :
    (∀ (row : Row) (cm : ColumnMatches) (lc gc : String),
      cm.lat = some lc → cm.lng = some gc →
      (row.get lc ≠ CsvValue.nan → (∀ q : ℚ, pyFloat (row.get lc) ≠ Except.ok q) →
        classify_row row cm = RowOutcome.skipped) ∧
      (∀ lat lng : ℚ,
        (if row.get lc ≠ CsvValue.nan then pyFloat (row.get lc)
          else Except.ok 0) = Except.ok lat →
        (if row.get gc ≠ CsvValue.nan then pyFloat (row.get gc)
          else Except.ok 0) = Except.ok lng →
        ((lat < -90 ∨ 90 < lat ∨ lng < -180 ∨ 180 < lng) →
          classify_row row cm = RowOutcome.skipped)) ∧
      (∀ lng : ℚ, row.get lc = CsvValue.nan →
        (if row.get gc ≠ CsvValue.nan then pyFloat (row.get gc)
          else Except.ok 0) = Except.ok lng →
        -180 ≤ lng → lng ≤ 180 →
        classify_row row cm = RowOutcome.accepted (build_draft row cm 0 lng))) ∧
    (∀ (row : Row) (cm : ColumnMatches) (d : AedDraft), cm.brand = none →
      classify_row row cm = RowOutcome.accepted d →
      d.brand = CsvValue.str "") ∧
    classify_row ex_row_lat95 ex_cm4 = RowOutcome.skipped ∧
    classify_row ex_row_latabc ex_cm4 = RowOutcome.skipped ∧
    classify_row ex_row_nobrand ex_cm4 =
      RowOutcome.accepted (build_draft ex_row_nobrand ex_cm4 22 114) ∧
    (build_draft ex_row_nobrand ex_cm4 22 114).brand = CsvValue.str "" := by
  refine ⟨?_, ?_, by decide, by decide, by decide, by decide⟩
  · intro row cm lc gc hlat hlng
    refine ⟨?_, ?_, ?_⟩
    · intro hnn herr
      cases hpf : pyFloat (row.get lc) with
      | ok q => exact absurd hpf (herr q)
      | error e =>
        unfold classify_row process_coordinates
        rw [hlat, hlng]
        dsimp only
        rw [if_pos hnn, hpf]
    · intro lat lng hA hB hout
      unfold classify_row process_coordinates
      rw [hlat, hlng]
      dsimp only
      rw [hA, hB]
      have hcond : ¬(-90 ≤ lat ∧ lat ≤ 90) ∨ ¬(-180 ≤ lng ∧ lng ≤ 180) := by
        rcases hout with h | h | h | h
        · exact Or.inl (fun hc => absurd hc.1 (not_le.mpr h))
        · exact Or.inl (fun hc => absurd hc.2 (not_le.mpr h))
        · exact Or.inr (fun hc => absurd hc.1 (not_le.mpr h))
        · exact Or.inr (fun hc => absurd hc.2 (not_le.mpr h))
      dsimp only
      rw [if_pos hcond]
    · intro lng hnan hB h1 h2
      unfold classify_row process_coordinates
      rw [hlat, hlng]
      dsimp only
      rw [if_neg (by simp [hnan]), hB]
      dsimp only
      rw [if_neg (not_or.mpr ⟨not_not_intro ⟨by norm_num, by norm_num⟩,
        not_not_intro ⟨h1, h2⟩⟩)]
  · intro row cm d hbrand hacc
    unfold classify_row at hacc
    cases hpc : process_coordinates row cm with
    | none => rw [hpc] at hacc; exact absurd hacc (by simp)
    | some p =>
      rw [hpc] at hacc
      cases p with
      | mk lat lng =>
        dsimp only at hacc
        injection hacc with hd
        rw [← hd]
        unfold build_draft safe_get_value
        rw [hbrand]

/-- Witness for C3: the brand clause applied at the concrete row without a
brand column. -/
theorem C3_row_normalizer_witness :
    (build_draft ex_row_nobrand ex_cm4 22 114).brand = CsvValue.str "" :=
  C3_row_normalizer.2.1 ex_row_nobrand ex_cm4
    (build_draft ex_row_nobrand ex_cm4 22 114) (by decide) (by decide)

/-- C4 counterexample: on a header with no latitude alias, the cited
reconciler helper `utils.map_columns` returns a partial mapping (name and
address mapped, lat missing) instead of failing, refuting "fails with an
explicit error (never a partial mapping) exactly when a required field has
no matching alias". -/
theorem C4_column_reconciler_counterexample :
    map_columns ex_header_nolat =
      { name := some "AED Name", address := some "AED Address",
        location_detail := none, lat := none, lng := some "Longitude",
        public_use := none, allowed_operators := none, access_persons := none,
        category := none, service_hours := none, brand := none, model := none,
        remark := none } ∧
    map_csv_columns ex_header_nolat = none := by decide

/-- C4 as amended: the pipeline reconciler `map_csv_columns` fails exactly
when a required field has no alias in the header, maps each found field to
the first alias of its priority list appearing in the header, never fails
because an optional field is absent, and maps the example header as
claimed; the helper `utils.map_columns` (unused by the pipelines) returns
the same alias scan as a partial mapping with no required-field check. -/
theorem C4_column_reconciler :
    (∀ cols : List String,
      (map_csv_columns cols = none ↔
        (findAlias name_aliases cols = none ∨
         findAlias address_aliases cols = none ∨
         findAlias lat_aliases cols = none ∨
         findAlias lng_aliases cols = none)) ∧
      (∀ m, map_csv_columns cols = some m →
        m = map_columns cols ∧
        (m.name = (name_aliases.filter (cols.contains ·)).head? ∧
         m.address = (address_aliases.filter (cols.contains ·)).head? ∧
         m.lat = (lat_aliases.filter (cols.contains ·)).head? ∧
         m.lng = (lng_aliases.filter (cols.contains ·)).head?) ∧
        (m.location_detail =
            (location_detail_aliases.filter (cols.contains ·)).head? ∧
         m.public_use = (public_use_aliases.filter (cols.contains ·)).head? ∧
         m.allowed_operators =
            (allowed_operators_aliases.filter (cols.contains ·)).head? ∧
         m.access_persons =
            (access_persons_aliases.filter (cols.contains ·)).head? ∧
         m.category = (category_aliases.filter (cols.contains ·)).head? ∧
         m.service_hours =
            (service_hours_aliases.filter (cols.contains ·)).head? ∧
         m.brand = (brand_aliases.filter (cols.contains ·)).head? ∧
         m.model = (model_aliases.filter (cols.contains ·)).head? ∧
         m.remark = (remark_aliases.filter (cols.contains ·)).head?)) ∧
      ((findAlias name_aliases cols).isSome →
        (findAlias address_aliases cols).isSome →
        (findAlias lat_aliases cols).isSome →
        (findAlias lng_aliases cols).isSome →
        (map_csv_columns cols).isSome)) ∧
    map_csv_columns ex_header4 = some
      { name := some "AED Name", address := some "AED Address",
        location_detail := none, lat := some "Latitude",
        lng := some "Longitude", public_use := none, allowed_operators := none,
        access_persons := none, category := none, service_hours := none,
        brand := none, model := none, remark := none } := by
  refine ⟨?_, by decide⟩
  intro cols
  refine ⟨?_, ?_, ?_⟩
  · unfold map_csv_columns
    dsimp only
    split_ifs with h
    · simp only [Option.isNone_iff_eq_none] at h
      exact ⟨fun _ => h, fun _ => rfl⟩
    · simp only [Option.isNone_iff_eq_none] at h
      exact ⟨fun hc => absurd hc (by simp), fun hc => absurd hc h⟩
  · intro m hm
    unfold map_csv_columns at hm
    dsimp only at hm
    split_ifs at hm with h
    injection hm with hm
    rw [← hm]
    refine ⟨rfl, ⟨?_, ?_, ?_, ?_⟩, ?_, ?_, ?_, ?_, ?_, ?_, ?_, ?_, ?_⟩ <;>
      exact find?_eq_head?_filter _ _
  · intro h1 h2 h3 h4
    unfold map_csv_columns
    dsimp only
    split_ifs with h
    · exfalso
      simp only [Option.isNone_iff_eq_none] at h
      rw [Option.isSome_iff_ne_none] at h1 h2 h3 h4
      rcases h with h | h | h | h
      · exact h1 h
      · exact h2 h
      · exact h3 h
      · exact h4 h
    · simp

/-- Witness for C4: the success and first-alias clauses at the example
header. -/
theorem C4_column_reconciler_witness :
    (map_csv_columns ex_header4).isSome ∧
    ex_cm4 = map_columns ex_header4 :=
  ⟨(C4_column_reconciler.1 ex_header4).2.2 (by decide) (by decide) (by decide)
      (by decide),
   ((C4_column_reconciler.1 ex_header4).2.1 ex_cm4 (by decide)).1⟩

/-- C2 counterexample: creating a report through the reports route against
the existing record id 1 succeeds but leaves that record unflagged, so the
claimed invariant (flagged iff referenced by a report) is violated in a
reachable state; and the same route accepts aed_id 99 with no AED
existence check. -/
theorem C2_report_flag_counterexample :
    (create_report ex_reports_db ex_report_create "2025-01-01T00:00:00").2 =
      EndpointResult.ok ∧
    ¬ flag_invariant
        (create_report ex_reports_db ex_report_create "2025-01-01T00:00:00").1 ∧
    (create_report ex_reports_db ex_report_create_dangling
        "2025-01-01T00:00:00").2 = EndpointResult.ok := by decide

/-- C2 as amended: the per-AED report endpoint validates the aed_id
against existing records (404 when absent, state unchanged) and on success
creates the report and sets the referenced record's flag fields from the
report; the reports-collection endpoint only checks aed_id ≥ 1, creates
the report without touching any AED record, so the global
flagged-iff-referenced invariant does not hold. -/
theorem C2_report_flag_coupling :
    (∀ (db : ReportsDB) (i : ℤ) (rep : ReportCreate) (now : String),
      (db.aeds.find? (fun a => a.id == i) = none →
        report_aed_issue db i rep now =
          (db, EndpointResult.httpError 404 "AED not found")) ∧
      (∀ a0, db.aeds.find? (fun a => a.id == i) = some a0 →
        valid_report_types.contains rep.report_type = true →
        ∃ db2, report_aed_issue db i rep now = (db2, EndpointResult.ok) ∧
          (∀ a ∈ db2.aeds, a.id = i →
            a.is_flagged = true ∧ a.flag_reason = some rep.report_type ∧
            a.flagged_at = some now) ∧
          (∀ a ∈ db.aeds, ¬ a.id = i → a ∈ db2.aeds) ∧
          db2.aeds.length = db.aeds.length ∧
          db2.reports = db.reports ++
            [{ id := db.next_report_id, aed_id := i,
               report_type := rep.report_type, description := rep.description,
               reporter_name := rep.reporter_name,
               reporter_email := rep.reporter_email,
               reporter_phone := rep.reporter_phone,
               created_at := now, status := "pending" }])) ∧
    (∀ (db : ReportsDB) (rep : ReportCreate) (now : String),
      ((create_report db rep now).1).aeds = db.aeds ∧
      (1 ≤ rep.aed_id →
        (create_report db rep now).2 = EndpointResult.ok)) := by
  constructor
  · intro db i rep now
    constructor
    · intro hfind
      unfold report_aed_issue
      rw [hfind]
    · intro a0 hfind hvalid
      unfold report_aed_issue
      rw [hfind]
      rw [if_neg (not_not_intro hvalid)]
      refine ⟨_, rfl, ?_, ?_, by simp, rfl⟩
      · intro a ha hai
        rw [List.mem_map] at ha
        obtain ⟨b, hb, hfb⟩ := ha
        cases hbi : (b.id == i) with
        | true =>
          rw [hbi] at hfb
          rw [← hfb]
          exact ⟨rfl, rfl, rfl⟩
        | false =>
          rw [hbi] at hfb
          simp only [Bool.false_eq_true, if_false] at hfb
          rw [← hfb] at hai
          rw [beq_eq_false_iff_ne] at hbi
          exact absurd hai hbi
      · intro a ha hne
        refine List.mem_map.mpr ⟨a, ha, ?_⟩
        rw [if_neg (by simp [hne])]
  · intro db rep now
    constructor
    · unfold create_report
      split_ifs <;> rfl
    · intro h1
      unfold create_report
      rw [if_neg (not_lt.mpr h1)]

/-- Witness for C2: the 404 branch at a nonexistent id, and the
flag-setting branch at the existing id 1, both on the concrete state. -/
theorem C2_report_flag_coupling_witness :
    report_aed_issue ex_reports_db 99 ex_report_create "t0" =
      (ex_reports_db, EndpointResult.httpError 404 "AED not found") ∧
    ((create_report ex_reports_db ex_report_create "t0").1).aeds =
      ex_reports_db.aeds :=
  ⟨(C2_report_flag_coupling.1 ex_reports_db 99 ex_report_create "t0").1
      (by decide),
   (C2_report_flag_coupling.2 ex_reports_db ex_report_create "t0").1⟩
/-- The refresh row loop never changes the committed table state: only an
explicit commit does. -/
theorem process_loop_committed (fail : ℕ → Bool) (cm : ColumnMatches) :
    ∀ (rows : List Row) (s : PgSession) (batch : List AedDraft)
      (c : ProcessCounts),
      (process_loop fail cm rows s batch c).1.committed = s.committed := by
  intro rows
  induction rows with
  | nil => intro s batch c; rfl
  | cons row rest ih =>
    intro s batch c
    unfold process_loop
    cases classify_row row cm with
    | skipped => exact ih s batch _
    | errored => exact ih s batch _
    | accepted d =>
      dsimp only
      by_cases h : 100 ≤ (batch ++ [d]).length
      · rw [if_pos h]
        dsimp only [PgSession.addAll, PgSession.flush]
        cases hr : fail s.flushSeq
        · exact ih _ _ _
        · exact ih _ _ _
      · rw [if_neg h]
        exact ih s _ _

/-- `process_and_insert_data` never changes the committed table state,
whether it returns or raises. -/
theorem process_and_insert_data_committed (fail : ℕ → Bool)
    (cm : ColumnMatches) (s : PgSession) (df : Df) :
    (∀ s2, process_and_insert_data fail s df cm = Except.error s2 →
      s2.committed = s.committed) ∧
    (∀ s2 c, process_and_insert_data fail s df cm = Except.ok (s2, c) →
      s2.committed = s.committed) := by
  rcases hpl : process_loop fail cm df.rows s [] ⟨0, 0, 0⟩ with ⟨s1, batch, c1⟩
  have hl : s1.committed = s.committed := by
    have h := process_loop_committed fail cm df.rows s [] ⟨0, 0, 0⟩
    rw [hpl] at h
    exact h
  constructor
  · intro s2 h2
    unfold process_and_insert_data at h2
    rw [hpl] at h2
    dsimp only at h2
    by_cases hb : batch.isEmpty
    · rw [if_pos hb] at h2
      cases h2
    · rw [if_neg hb] at h2
      dsimp only [PgSession.addAll, PgSession.flush] at h2
      cases hr : fail s1.flushSeq
      · rw [hr] at h2
        cases h2
      · rw [hr] at h2
        injection h2 with h2
        rw [← h2]
        exact hl
  · intro s2 c h2
    unfold process_and_insert_data at h2
    rw [hpl] at h2
    dsimp only at h2
    by_cases hb : batch.isEmpty
    · rw [if_pos hb] at h2
      injection h2 with h2
      injection h2 with h2a h2b
      rw [← h2a]
      exact hl
    · rw [if_neg hb] at h2
      dsimp only [PgSession.addAll, PgSession.flush] at h2
      cases hr : fail s1.flushSeq
      · rw [hr] at h2
        injection h2 with h2
        injection h2 with h2a h2b
        rw [← h2a]
        exact hl
      · rw [hr] at h2
        cases h2

/-- With a failure-free oracle, the pending state plus the open batch of
the refresh row loop is the input pending state, the input batch, then the
accepted drafts of the remaining rows, in order. -/
theorem process_loop_nofail (cm : ColumnMatches) :
    ∀ (rows : List Row) (s : PgSession) (batch : List AedDraft)
      (c : ProcessCounts),
      (process_loop (fun _ => false) cm rows s batch c).1.pending ++
        (process_loop (fun _ => false) cm rows s batch c).2.1 =
      s.pending ++ batch ++ accepted_drafts cm rows := by
  intro rows
  induction rows with
  | nil =>
    intro s batch c
    simp [process_loop, accepted_drafts]
  | cons row rest ih =>
    intro s batch c
    unfold process_loop
    cases hcl : classify_row row cm with
    | skipped =>
      have hacc : accepted_drafts cm (row :: rest) = accepted_drafts cm rest := by
        simp [accepted_drafts, List.filterMap_cons, hcl]
      rw [hacc]
      exact ih s batch _
    | errored =>
      have hacc : accepted_drafts cm (row :: rest) = accepted_drafts cm rest := by
        simp [accepted_drafts, List.filterMap_cons, hcl]
      rw [hacc]
      exact ih s batch _
    | accepted d =>
      have hacc : accepted_drafts cm (row :: rest) =
          d :: accepted_drafts cm rest := by
        simp [accepted_drafts, List.filterMap_cons, hcl]
      rw [hacc]
      dsimp only
      by_cases h : 100 ≤ (batch ++ [d]).length
      · rw [if_pos h]
        dsimp only [PgSession.addAll, PgSession.flush]
        rw [ih _ [] _]
        simp
      · rw [if_neg h]
        rw [ih s _ _]
        simp

/-- C1: on any exception inside the delete-then-repopulate transaction
(injected at the delete, at the batch-final flush that escapes the
row-level handler, or at the commit), the run reports failure and the
committed dataset is exactly the pre-refresh dataset — in particular the
record count is preserved; and a fully successful run commits exactly the
accepted drafts of the feed, so no partial replacement is ever durable. -/
theorem C1_refresh_atomicity :
    (∀ (fail : ℕ → Bool) (deleteFail commitFail : Bool)
       (fetch : Except String String) (parseCsv : String → Option Df)
       (db0 : List AedDraft) (msg : String),
      (update_aed_database fail deleteFail commitFail fetch parseCsv db0).2 =
        RefreshStatus.failed msg →
      (update_aed_database fail deleteFail commitFail fetch parseCsv db0).1 =
        db0 ∧
      (update_aed_database fail deleteFail commitFail fetch parseCsv
          db0).1.length = db0.length) ∧
    (∀ (fetch : Except String String) (parseCsv : String → Option Df)
       (db0 : List AedDraft) (df : Df) (cm : ColumnMatches),
      download_and_parse_data fetch parseCsv = some df →
      map_csv_columns df.columns = some cm →
      (update_aed_database (fun _ => false) false false fetch parseCsv db0).1 =
        accepted_drafts cm df.rows) := by
  constructor
  · intro fail deleteFail commitFail fetch parseCsv db0 msg
    unfold update_aed_database
    cases hdl : download_and_parse_data fetch parseCsv with
    | none => exact fun _ => ⟨rfl, rfl⟩
    | some df =>
      dsimp only
      cases hmap : map_csv_columns df.columns with
      | none => exact fun _ => ⟨rfl, rfl⟩
      | some cm =>
        dsimp only
        by_cases hdel : deleteFail = true
        · rw [if_pos hdel]
          exact fun _ => ⟨rfl, rfl⟩
        · rw [if_neg hdel]
          cases hp : process_and_insert_data fail
              (PgSession.deleteAll ⟨db0, db0, 0⟩) df cm with
          | error s2 =>
            intro _
            have h2 := (process_and_insert_data_committed fail cm _ df).1 s2 hp
            exact ⟨h2, congrArg List.length h2⟩
          | ok p =>
            cases p with
            | mk s2 counts =>
              have h2 :=
                (process_and_insert_data_committed fail cm _ df).2 s2 counts hp
              dsimp only
              by_cases hcf : commitFail = true
              · rw [if_pos hcf]
                intro _
                exact ⟨h2, congrArg List.length h2⟩
              · rw [if_neg hcf]
                intro hfalse
                cases hfalse
  · intro fetch parseCsv db0 df cm hdl hmap
    unfold update_aed_database
    rw [hdl]
    dsimp only
    rw [hmap]
    dsimp only
    rw [if_neg (by simp)]
    rcases hpl : process_loop (fun _ => false) cm df.rows
        (PgSession.deleteAll ⟨db0, db0, 0⟩) [] ⟨0, 0, 0⟩ with ⟨s1, batch, c1⟩
    have hnf := process_loop_nofail cm df.rows
      (PgSession.deleteAll ⟨db0, db0, 0⟩) [] ⟨0, 0, 0⟩
    rw [hpl] at hnf
    dsimp only [PgSession.deleteAll] at hnf
    rw [List.nil_append, List.nil_append] at hnf
    cases hp : process_and_insert_data (fun _ => false)
        (PgSession.deleteAll ⟨db0, db0, 0⟩) df cm with
    | error s2 =>
      exfalso
      unfold process_and_insert_data at hp
      rw [hpl] at hp
      dsimp only at hp
      by_cases hb : batch.isEmpty
      · rw [if_pos hb] at hp
        cases hp
      · rw [if_neg hb] at hp
        dsimp only [PgSession.addAll, PgSession.flush] at hp
        cases hp
    | ok p =>
      cases p with
      | mk s2 counts =>
        dsimp only
        rw [if_neg (by simp)]
        show s2.commit.committed = accepted_drafts cm df.rows
        unfold process_and_insert_data at hp
        rw [hpl] at hp
        dsimp only at hp
        by_cases hb : batch.isEmpty
        · rw [if_pos hb] at hp
          injection hp with hp
          injection hp with hpa hpb
          rw [List.isEmpty_iff] at hb
          rw [hb, List.append_nil] at hnf
          rw [← hpa]
          exact hnf
        · rw [if_neg hb] at hp
          dsimp only [PgSession.addAll, PgSession.flush] at hp
          injection hp with hp
          injection hp with hpa hpb
          rw [← hpa]
          exact hnf

/-- Witness for C1: a commit failure on a one-row feed leaves the stored
record intact, and a failure-free run on the same feed commits exactly the
accepted drafts. -/
theorem C1_refresh_atomicity_witness :
    (update_aed_database (fun _ => false) false true (Except.ok "body")
        (fun _ => some ex_df) [ex_startup_draft]).1 = [ex_startup_draft] ∧
    (update_aed_database (fun _ => false) false false (Except.ok "body")
        (fun _ => some ex_df) [ex_startup_draft]).1 =
      accepted_drafts ex_cm4 ex_df.rows :=
  ⟨(C1_refresh_atomicity.1 (fun _ => false) false true (Except.ok "body")
      (fun _ => some ex_df) [ex_startup_draft]
      "Database transaction failed: commit" (by decide)).1,
   C1_refresh_atomicity.2 (Except.ok "body") (fun _ => some ex_df)
      [ex_startup_draft] ex_df ex_cm4 (by decide) (by decide)⟩

/-- C5: a transport/HTTP failure, a total parse failure, or a
column-mapping failure each abort the refresh with the corresponding
message and the stored dataset completely untouched — no delete and no
insert happens on any of these paths. -/
theorem C5_pipeline_failure_untouched :
    ∀ (fail : ℕ → Bool) (deleteFail commitFail : Bool)
      (fetch : Except String String) (parseCsv : String → Option Df)
      (db0 : List AedDraft),
      (∀ e, fetch = Except.error e →
        update_aed_database fail deleteFail commitFail fetch parseCsv db0 =
          (db0, RefreshStatus.failed "Failed to download or parse data")) ∧
      (∀ body, fetch = Except.ok body → parseCsv body = none →
        update_aed_database fail deleteFail commitFail fetch parseCsv db0 =
          (db0, RefreshStatus.failed "Failed to download or parse data")) ∧
      (∀ df, download_and_parse_data fetch parseCsv = some df →
        map_csv_columns df.columns = none →
        update_aed_database fail deleteFail commitFail fetch parseCsv db0 =
          (db0,
            RefreshStatus.failed
              "Failed to map CSV columns to database fields")) := by
  intro fail deleteFail commitFail fetch parseCsv db0
  refine ⟨?_, ?_, ?_⟩
  · intro e he
    unfold update_aed_database download_and_parse_data
    rw [he]
  · intro body hb hpn
    unfold update_aed_database download_and_parse_data
    rw [hb]
    dsimp only
    rw [hpn]
  · intro df hdf hmn
    unfold update_aed_database
    rw [hdf]
    dsimp only
    rw [hmn]

/-- Witness for C5 at a transport failure and at a header with no latitude
alias. -/
theorem C5_pipeline_failure_untouched_witness :
    update_aed_database (fun _ => false) false false (Except.error "timeout")
        (fun _ => none) [ex_startup_draft] =
      ([ex_startup_draft],
        RefreshStatus.failed "Failed to download or parse data") ∧
    update_aed_database (fun _ => false) false false (Except.ok "body")
        (fun _ => some ⟨ex_header_nolat, []⟩) [ex_startup_draft] =
      ([ex_startup_draft],
        RefreshStatus.failed "Failed to map CSV columns to database fields") :=
  ⟨(C5_pipeline_failure_untouched (fun _ => false) false false
      (Except.error "timeout") (fun _ => none) [ex_startup_draft]).1
      "timeout" rfl,
   (C5_pipeline_failure_untouched (fun _ => false) false false
      (Except.ok "body") (fun _ => some ⟨ex_header_nolat, []⟩)
      [ex_startup_draft]).2.2 ⟨ex_header_nolat, []⟩ (by decide) (by decide)⟩

/-- The startup import loop only appends to the pending state, and the
committed state it leaves is either the one it started from or the
starting pending state plus newly added rows — it never removes a stored
row. -/
theorem startup_loop_insert_only (fail : ℕ → Bool) (cm : ColumnMatches) :
    ∀ (rows : List Row) (s : StartupSession) (succ err skip : ℕ),
      (∃ tail, (startup_loop fail cm rows s succ err skip).1.pending =
        s.pending ++ tail) ∧
      ((startup_loop fail cm rows s succ err skip).1.committed = s.committed ∨
        ∃ tail, (startup_loop fail cm rows s succ err skip).1.committed =
          s.pending ++ tail) := by
  intro rows
  induction rows with
  | nil =>
    intro s succ err skip
    exact ⟨⟨[], by simp [startup_loop]⟩, Or.inl rfl⟩
  | cons row rest ih =>
    intro s succ err skip
    unfold startup_loop
    cases startup_classify_row row cm with
    | skipped => exact ih s succ err _
    | errored => exact ih s succ _ skip
    | accepted d =>
      dsimp only
      by_cases h : (succ + 1) % 100 = 0
      · rw [if_pos h]
        dsimp only [StartupSession.add, StartupSession.commit]
        by_cases hf : fail s.commitSeq
        · rw [if_pos hf]
          dsimp only
          rcases ih ⟨s.committed, s.pending ++ [d], s.commitSeq + 1⟩
              (succ + 1) (err + 1) skip with ⟨⟨t, ht⟩, hc⟩
          dsimp only at ht hc
          constructor
          · exact ⟨[d] ++ t, by rw [ht, List.append_assoc]⟩
          · rcases hc with hc | ⟨t2, ht2⟩
            · exact Or.inl hc
            · exact Or.inr ⟨[d] ++ t2, by rw [ht2, List.append_assoc]⟩
        · rw [if_neg hf]
          dsimp only
          rcases ih ⟨s.pending ++ [d], s.pending ++ [d], s.commitSeq + 1⟩
              (succ + 1) err skip with ⟨⟨t, ht⟩, hc⟩
          dsimp only at ht hc
          constructor
          · exact ⟨[d] ++ t, by rw [ht, List.append_assoc]⟩
          · rcases hc with hc | ⟨t2, ht2⟩
            · exact Or.inr ⟨[d], hc⟩
            · exact Or.inr ⟨[d] ++ t2, by rw [ht2, List.append_assoc]⟩
      · rw [if_neg h]
        dsimp only [StartupSession.add]
        rcases ih ⟨s.committed, s.pending ++ [d], s.commitSeq⟩
            (succ + 1) err skip with ⟨⟨t, ht⟩, hc⟩
        dsimp only at ht hc
        constructor
        · exact ⟨[d] ++ t, by rw [ht, List.append_assoc]⟩
        · rcases hc with hc | ⟨t2, ht2⟩
          · exact Or.inl hc
          · exact Or.inr ⟨[d] ++ t2, by rw [ht2, List.append_assoc]⟩

/-- C10: the startup import runs only when the stored count is zero (a
nonzero count leaves the dataset bit-for-bit unchanged); the import path
only inserts — the final dataset always extends the starting one; and
the import commits incrementally in batches of 100 rather than atomically: on
the concrete 150-row feed, a run whose commits fail after the first batch
commit still leaves the first 100 rows durably stored, while a
failure-free run stores all 150. -/
theorem C10_startup_conditional :
    (∀ (fail : ℕ → Bool) (fetch : Except String (ℕ × String))
       (parseCsv : String → Option Df) (db0 : List AedDraft),
      db0.length ≠ 0 → startup_event fail fetch parseCsv db0 = db0) ∧
    (∀ (fail : ℕ → Bool) (fetch : Except String (ℕ × String))
       (parseCsv : String → Option Df) (db0 : List AedDraft),
      ∃ tail, startup_event fail fetch parseCsv db0 = db0 ++ tail) ∧
    startup_event (fun n => n ≠ 0) (Except.ok (200, "body"))
        (fun _ => some ex_startup_df) [] =
      List.replicate 100 ex_startup_draft ∧
    startup_event (fun _ => false) (Except.ok (200, "body"))
        (fun _ => some ex_startup_df) [] =
      List.replicate 150 ex_startup_draft := by
  have hguard : ∀ (fail : ℕ → Bool) (fetch : Except String (ℕ × String))
      (parseCsv : String → Option Df) (db0 : List AedDraft),
      db0.length ≠ 0 → startup_event fail fetch parseCsv db0 = db0 := by
    intro fail fetch parseCsv db0 h
    unfold startup_event
    rw [if_neg h]
  refine ⟨hguard, ?_, by set_option maxRecDepth 8000 in decide,
    by set_option maxRecDepth 8000 in decide⟩
  intro fail fetch parseCsv db0
  cases db0 with
  | nil => exact ⟨startup_event fail fetch parseCsv [], by simp⟩
  | cons a t =>
    exact ⟨[], by rw [hguard fail fetch parseCsv (a :: t) (by simp),
      List.append_nil]⟩

/-- Witness for C10: a nonempty store is untouched on startup, and
the import path extends the (empty) store. -/
theorem C10_startup_conditional_witness :
    startup_event (fun _ => false) (Except.error "down") (fun _ => none)
        [ex_startup_draft] = [ex_startup_draft] ∧
    ∃ tail, startup_event (fun _ => false) (Except.ok (200, "body"))
        (fun _ => some ex_startup_df) [] = [] ++ tail :=
  ⟨C10_startup_conditional.1 (fun _ => false) (Except.error "down")
      (fun _ => none) [ex_startup_draft] (by decide),
   C10_startup_conditional.2.1 (fun _ => false) (Except.ok (200, "body"))
      (fun _ => some ex_startup_df) []⟩

end AEDApi
